import Mathlib

/-!
Verification of the planit authentication core.

The source is a Node/Express backend over Firestore.  We embed the
authentication subsystem shallowly:

* Firestore documents are association lists of string keys and values
  (`Doc`); nested objects of the source documents are modelled flattened
  with dotted keys (for example `address.city`).
* bcrypt hashes are modelled as a constructor carrying the salt and the
  hashed plaintext; `bcrypt.compare` checks the plaintext and, as in the
  node library, rejects when the hash argument is `undefined` (`none`).
* JSON web tokens are an inductive type: a signed token carries its
  payload, signing secret and expiry; anything else is `malformed`.
  `jwt.verify` succeeds exactly on a token signed with the right secret
  whose expiry lies in the future.
* Randomness (OTP codes, bcrypt salts, fresh Firestore document ids) and
  the clock are passed as explicit arguments.
* `Math.random`-based handlers and every `await`ed store call are pure
  state-passing functions over `Db`.
-/

namespace Planit

/-- A stored JSON-ish value.  Arrays carry uninterpreted string elements (the
source never inspects array elements in the embedded code paths). -/
inductive Value where
  | vstr (s : String)
  | vnat (n : Nat)
  | vbool (b : Bool)
  | vnull
  | vhash (salt : Nat) (pw : String)
  | varrs (xs : List String)
deriving DecidableEq

/-- A Firestore document body: ordered key/value pairs. -/
abbrev Doc := List (String × Value)

/-- Read a key from a document (first occurrence). -/
def lookupKey (d : Doc) (k : String) : Option Value :=
  (d.find? (fun p => p.1 == k)).map Prod.snd

/-- Drop a key from a document; models JS rest-destructuring
`const \x7b password, ...rest \x7d = obj`. -/
def removeKey (d : Doc) (k : String) : Doc :=
  d.filter (fun p => p.1 != k)

/-- Set one key of a document, replacing an existing binding or appending;
models one key of a Firestore `update` or of a JS object spread. -/
def setKey (d : Doc) (k : String) (v : Value) : Doc :=
  if (d.find? (fun p => p.1 == k)).isSome then
    d.map (fun p => if p.1 == k then (k, v) else p)
  else
    d ++ [(k, v)]

/-- Apply a patch key by key, later keys winning; models Firestore
`ref.update(patch)` and the JS spread `\x7b ...base, ...patch \x7d`. -/
def applyPatch (d : Doc) (patch : Doc) : Doc :=
  patch.foldl (fun acc kv => setKey acc kv.1 kv.2) d

/-- JavaScript truthiness of a possibly-absent value (`undefined`, `null`,
`""`, `0` and `false` are falsy; arrays and hashes are objects, truthy). -/
def truthy : Option Value → Bool
  | none => false
  | some (.vstr s) => s ≠ ""
  | some (.vnat n) => n ≠ 0
  | some (.vbool b) => b
  | some .vnull => false
  | some (.vhash _ _) => true
  | some (.varrs _) => true

/-- Extract a string value, if that is what is stored. -/
def getStr : Option Value → Option String
  | some (.vstr s) => some s
  | _ => none

/-- Variant of `getStr` returning the empty string by default. -/
def getStrD (v : Option Value) : String := (getStr v).getD ""

/-- JS `String.prototype.toLowerCase()`, modelled over the character
list. -/
def jsToLower (s : String) : String := String.mk (s.data.map Char.toLower)

/-- Typed errors thrown by the controllers (`middleware/errorHandler.js`
classes), plus `plain` for a bare `new Error(...)` / runtime exception. -/
inductive AppError where
  | validation (msg : String)
  | authentication (msg : String)
  | authorization (msg : String)
  | notFound (msg : String)
  | conflict (msg : String)
  | plain (msg : String)
deriving DecidableEq

/-- The message carried by an error. -/
def AppError.message : AppError → String
  | .validation m => m
  | .authentication m => m
  | .authorization m => m
  | .notFound m => m
  | .conflict m => m
  | .plain m => m

/-- Modelled from the spec: `middleware/errorHandler.js` is referenced by
every route but its source is not part of the repository snapshot.  Per
spec section 7 (and the repository's own API documentation) the boundary
translator maps `ValidationError` to 400, `AuthenticationError` to 401,
`AuthorizationError` to 403, `NotFoundError` to 404, `ConflictError` to
409, and anything unrecognized to a generic 500. -/
def errorStatus : AppError → Nat
  | .validation _ => 400
  | .authentication _ => 401
  | .authorization _ => 403
  | .notFound _ => 404
  | .conflict _ => 409
  | .plain _ => 500

/-- A user document: Firestore id plus document body. -/
structure UserDoc where
  id : String
  data : Doc
deriving DecidableEq

/-- An OTP record, collection `otps` (`storeOTP` in `authController.js`).
The source field `type` is named `otype` here. -/
structure OtpRecord where
  userId : String
  otp : String
  otype : String
  createdAt : Nat
  expiresAt : Nat
  used : Bool
deriving DecidableEq

/-- A JWT payload as produced by `TokenManager.generateTokens`, together
with the issued-at claim `jsonwebtoken` adds on signing. -/
structure JwtPayload where
  userId : String
  email : String
  role : String
  iat : Nat
deriving DecidableEq

/-- A token string: either a well-formed JWT (payload, signing secret,
expiry) or malformed text. -/
inductive Token where
  | signed (payload : JwtPayload) (secret : Nat) (exp : Nat)
  | malformed (s : String)
deriving DecidableEq

/-- A stored refresh-token record, collection `refresh_tokens`. -/
structure TokenRecord where
  userId : String
  token : Token
  createdAt : Nat
  expiresAt : Nat
deriving DecidableEq

/-- The backing store: the three collections the auth core touches. -/
structure Db where
  users : List UserDoc
  otps : List OtpRecord
  refreshTokens : List TokenRecord
deriving DecidableEq

/-- An HTTP response as observed by the client: status, `success` flag,
`message`, and the data fields the auth endpoints return. -/
structure Response where
  status : Nat
  success : Bool
  message : String
  accessToken : Option Token
  refreshToken : Option Token
  dataUserId : Option String
deriving DecidableEq

/-- Translate a thrown error to its response (the error boundary). -/
def errResponse (e : AppError) : Response :=
  Response.mk (errorStatus e) false e.message none none none

/-- Run a controller under the error boundary: a thrown error becomes its
translated response, the store state is kept either way. -/
def runHandler (x : Except AppError Response × Db) : Response × Db :=
  (match x.1 with
   | Except.ok r => r
   | Except.error e => errResponse e, x.2)

/-- Model of `bcrypt.hash(pw, 10)` with an explicit salt. -/
def bcryptHash (salt : Nat) (pw : String) : Value := Value.vhash salt pw

/-- Model of `bcrypt.compare(plain, hash)`: rejects when the hash argument is
`undefined`, matches a real hash against its plaintext, and resolves
`false` on a non-hash value. -/
def bcryptCompare (plain : String) (h : Option Value) : Except AppError Bool :=
  match h with
  | none => Except.error (AppError.plain "data and hash arguments required")
  | some (.vhash _ pw) => Except.ok (pw == plain)
  | some _ => Except.ok false

/-- Model of `process.env.JWT_SECRET`. -/
def JWT_SECRET : Nat := 0

/-- Model of `process.env.JWT_REFRESH_SECRET` (distinct from the access secret). -/
def JWT_REFRESH_SECRET : Nat := 1

/-- Default access-token lifetime `7d`, in seconds. -/
def ACCESS_TTL : Nat := 7 * 24 * 3600

/-- Default refresh-token lifetime `30d`, in seconds. -/
def REFRESH_TTL : Nat := 30 * 24 * 3600

/-- Lifetime of a stored refresh-token record: 30 days, in seconds. -/
def REFRESH_RECORD_TTL : Nat := 30 * 24 * 3600

/-- Model of `jwt.verify(token, secret)` at clock `now`. -/
def jwtVerify (t : Token) (secret : Nat) (now : Nat) : Option JwtPayload :=
  match t with
  | .signed p s e => if s = secret ∧ now < e then some p else none
  | .malformed _ => none

/-- Model of `TokenManager.generateAccessToken`. -/
def generateAccessToken (p : JwtPayload) (now : Nat) : Token :=
  Token.signed p JWT_SECRET (now + ACCESS_TTL)

/-- Model of `TokenManager.generateRefreshToken`. -/
def generateRefreshToken (p : JwtPayload) (now : Nat) : Token :=
  Token.signed p JWT_REFRESH_SECRET (now + REFRESH_TTL)

/-- Model of `TokenManager.generateTokens(user)`: one payload, two tokens. -/
def generateTokens (u : UserDoc) (now : Nat) : Token × Token :=
  let p := JwtPayload.mk u.id (getStrD (lookupKey u.data "email"))
            (getStrD (lookupKey u.data "role")) now
  (generateAccessToken p now, generateRefreshToken p now)

/-- Model of `TokenManager.verifyAccessToken`: any verification failure is caught
and rethrown as the one bare `Error("Invalid or expired token")`. -/
def verifyAccessToken (t : Token) (now : Nat) : Except AppError JwtPayload :=
  match jwtVerify t JWT_SECRET now with
  | some p => Except.ok p
  | none => Except.error (AppError.plain "Invalid or expired token")

/-- Model of `TokenManager.verifyRefreshToken`: any verification failure is caught
and rethrown as the one bare `Error("Invalid or expired refresh token")`. -/
def verifyRefreshToken (t : Token) (now : Nat) : Except AppError JwtPayload :=
  match jwtVerify t JWT_REFRESH_SECRET now with
  | some p => Except.ok p
  | none => Except.error (AppError.plain "Invalid or expired refresh token")

/-- Model of `TokenManager.storeRefreshToken`. -/
def storeRefreshToken (db : Db) (uid : String) (t : Token) (now : Nat) : Db :=
  Db.mk db.users db.otps
    (db.refreshTokens ++ [TokenRecord.mk uid t now (now + REFRESH_RECORD_TTL)])

/-- Model of `TokenManager.isRefreshTokenValid`: a stored record with a matching
token string must exist and its `expiresAt` must lie in the future.  (The
token's own signature is not examined here.) -/
def isRefreshTokenValid (db : Db) (t : Token) (now : Nat) : Bool :=
  match db.refreshTokens.find? (fun r => r.token == t) with
  | none => false
  | some r => now < r.expiresAt

/-- Model of `TokenManager.revokeRefreshToken`: delete every record matching the
token string. -/
def revokeRefreshToken (db : Db) (t : Token) : Db :=
  Db.mk db.users db.otps (db.refreshTokens.filter (fun r => r.token != t))

/-- Model of `BaseUser._sanitizeUser`: strip the `password` field. -/
def sanitizeUser (u : UserDoc) : UserDoc :=
  UserDoc.mk u.id (removeKey u.data "password")

/-- Model of `BaseUser.findByEmail`: case-folded email lookup; the result is
sanitized (no `password` field). -/
def findByEmail (db : Db) (email : String) : Option UserDoc :=
  (db.users.find? (fun u =>
    lookupKey u.data "email" == some (Value.vstr (jsToLower email)))).map
    sanitizeUser

/-- Model of `BaseUser.findById`; the result is sanitized (no `password` field). -/
def findById (db : Db) (uid : String) : Option UserDoc :=
  (db.users.find? (fun u => u.id == uid)).map sanitizeUser

/-- Model of `BaseUser.verifyPassword(plain, hashed)` is `bcrypt.compare`. -/
def verifyPassword (plain : String) (h : Option Value) : Except AppError Bool :=
  bcryptCompare plain h

/-- Model of `BaseUser.update(userId, updateData)`: drop `password` from the patch,
stamp `updatedAt`, merge into the document, return the updated document
sanitized.  A missing document makes the Firestore `update` call reject. -/
def baseUserUpdate (db : Db) (uid : String) (patch : Doc) (now : Nat) :
    Except AppError (Db × UserDoc) :=
  match db.users.find? (fun u => u.id == uid) with
  | none => Except.error (AppError.plain "NOT_FOUND: no document to update")
  | some _ =>
    match (db.users.map (fun u =>
        if u.id == uid then
          UserDoc.mk u.id (applyPatch u.data
            (removeKey patch "password" ++ [("updatedAt", Value.vnat now)]))
        else u)).find? (fun u => u.id == uid) with
    | none => Except.error (AppError.plain "NOT_FOUND: no document to update")
    | some u1 =>
      Except.ok (Db.mk (db.users.map (fun u =>
        if u.id == uid then
          UserDoc.mk u.id (applyPatch u.data
            (removeKey patch "password" ++ [("updatedAt", Value.vnat now)]))
        else u)) db.otps db.refreshTokens, sanitizeUser u1)

/-- Model of `value || default` for JS default-value idioms such as `bio || ''`. -/
def orDefault (v : Option Value) (d : Value) : Value :=
  match v with
  | some x => if truthy (some x) then x else d
  | none => d

/-- Model of `value || null` for optional stored fields. -/
def orNull (v : Option Value) : Value := orDefault v Value.vnull

/-- Model of `BaseUser.create(userData)`: hash the password, store the document
with `isActive=true`, `emailVerified=false`, and return it sanitized.
`email` and `password` must be strings or the JS code throws.  `newId` is
the fresh document id Firestore `add` generates. -/
def baseUserCreate (db : Db) (emailV passwordV fullNameV roleV phoneV picV : Option Value)
    (newId : String) (salt now : Nat) : Except AppError (Db × UserDoc) :=
  match getStr emailV, getStr passwordV with
  | some e, some pw =>
    let doc : Doc :=
      [("email", Value.vstr (jsToLower e)),
       ("password", bcryptHash salt pw),
       ("fullName", orNull fullNameV),
       ("role", orDefault roleV (Value.vstr "planner")),
       ("phoneNumber", orNull phoneV),
       ("profilePicture", orNull picV),
       ("createdAt", Value.vnat now),
       ("updatedAt", Value.vnat now),
       ("isActive", Value.vbool true),
       ("emailVerified", Value.vbool false)]
    Except.ok (Db.mk (db.users ++ [UserDoc.mk newId doc]) db.otps db.refreshTokens,
               sanitizeUser (UserDoc.mk newId doc))
  | _, _ => Except.error (AppError.plain "data and salt arguments required")

/-- Model of `Planner.create(plannerData)`: destructures only
`email, password, fullName, profilePicture, bio, preferences,
notifications` (a `role` key of the argument is ignored), creates the base
user with `role: ROLES.PLANNER`, then writes the planner-specific fields
onto the new document. -/
def plannerCreate (db : Db) (arg : Doc) (newId : String) (salt now : Nat) :
    Except AppError (Db × UserDoc) :=
  match baseUserCreate db (lookupKey arg "email") (lookupKey arg "password")
      (lookupKey arg "fullName") (some (Value.vstr "planner")) none
      (lookupKey arg "profilePicture") newId salt now with
  | Except.error e => Except.error e
  | Except.ok (db1, baseUser) =>
    Except.ok (Db.mk
      (db1.users.map (fun u =>
        if u.id == newId then
          UserDoc.mk u.id (applyPatch u.data
            [("bio", orDefault (lookupKey arg "bio") (Value.vstr "")),
             ("notifications",
               orDefault (lookupKey arg "notifications") (Value.varrs [])),
             ("eventsCount", Value.vnat 0),
             ("completedEventsCount", Value.vnat 0)])
        else u))
      db1.otps db1.refreshTokens,
     UserDoc.mk newId (applyPatch baseUser.data
       [("bio", orDefault (lookupKey arg "bio") (Value.vstr "")),
        ("notifications",
          orDefault (lookupKey arg "notifications") (Value.varrs [])),
        ("eventsCount", Value.vnat 0),
        ("completedEventsCount", Value.vnat 0)]))

/-- Model of `storeOTP(userId, otp, type)`: persist the code with a 10-minute
expiry (600 seconds). -/
def storeOTP (db : Db) (uid otp otype : String) (now : Nat) : Db :=
  Db.mk db.users (db.otps ++ [OtpRecord.mk uid otp otype now (now + 600) false])
    db.refreshTokens

/-- Whether an OTP record matches the query of `verifyOTP`: same user,
same code, same type, not yet used. -/
def otpMatches (r : OtpRecord) (uid otp otype : String) : Bool :=
  r.userId == uid && r.otp == otp && r.otype == otype && r.used == false

/-- Index of the record `verifyOTP`'s `limit(1)` query would return. -/
def otpMatchIdx : List OtpRecord → String → String → String → Option Nat
  | [], _, _, _ => none
  | r :: rest, uid, otp, otype =>
    if otpMatches r uid otp otype then some 0
    else (otpMatchIdx rest uid otp otype).map (fun i => i + 1)

/-- Mark an OTP record used. -/
def markUsed (r : OtpRecord) : OtpRecord :=
  OtpRecord.mk r.userId r.otp r.otype r.createdAt r.expiresAt true

/-- Model of `verifyOTP` over the `otps` collection: find the first unused record
matching user, code and type; fail closed if none; fail if it is expired;
otherwise mark it used and succeed. -/
def verifyOTPList : List OtpRecord → String → String → String → Nat →
    (Bool × String) × List OtpRecord
  | [], _, _, _, _ => ((false, "Invalid OTP code"), [])
  | r :: rest, uid, otp, otype, now =>
    if otpMatches r uid otp otype then
      if r.expiresAt < now then ((false, "OTP code has expired"), r :: rest)
      else ((true, ""), markUsed r :: rest)
    else
      let res := verifyOTPList rest uid otp otype now
      (res.1, r :: res.2)

/-- Model of `verifyOTP(userId, otp, type)` on the store. -/
def verifyOTP (db : Db) (uid otp otype : String) (now : Nat) :
    (Bool × String) × Db :=
  let res := verifyOTPList db.otps uid otp otype now
  (res.1, Db.mk db.users res.2 db.refreshTokens)

/-- Model of `POST /api/auth/signup` (`signup` in `authController.js`): reject a
duplicate email with `ConflictError`, otherwise create the account through
`Planner.create` with `role: ROLES.PLANNER` in the argument object (the
body spread comes after it), store an email-verification OTP and respond
201.  `otp` is the generated code, `newId` the fresh Firestore id. -/
def signupH (db : Db) (body : Doc) (otp newId : String) (salt now : Nat) :
    Except AppError Response × Db :=
  match getStr (lookupKey body "email") with
  | none => (Except.error (AppError.plain "email.toLowerCase is not a function"), db)
  | some email =>
    match findByEmail db email with
    | some _ => (Except.error (AppError.conflict "User with this email already exists"), db)
    | none =>
      match plannerCreate db
          (applyPatch
            [("email", Value.vstr email), ("role", Value.vstr "planner")]
            (removeKey body "email")) newId salt now with
      | Except.error e => (Except.error e, db)
      | Except.ok (db1, user) =>
        let db2 := storeOTP db1 user.id otp "email_verification" now
        (Except.ok (Response.mk 201 true
          "User registered successfully. Please check your email for verification code."
          none none (some user.id)), db2)

/-- Model of `signup` under the error boundary. -/
def signup (db : Db) (body : Doc) (otp newId : String) (salt now : Nat) :
    Response × Db :=
  runHandler (signupH db body otp newId salt now)

/-- Model of `POST /api/auth/login` (`login` in `authController.js`): look the user
up by email, reject unknown email or a deactivated account with
`AuthenticationError`, verify the password against `user.password` of the
(sanitized) lookup result, reject an unverified email, then issue and
persist a token pair. -/
def loginH (db : Db) (email pw : String) (now : Nat) :
    Except AppError Response × Db :=
  match findByEmail db email with
  | none => (Except.error (AppError.authentication "Invalid email or password"), db)
  | some user =>
    if truthy (lookupKey user.data "isActive") = false then
      (Except.error (AppError.authentication
        "Account is deactivated. Please contact support."), db)
    else
      match verifyPassword pw (lookupKey user.data "password") with
      | Except.error e => (Except.error e, db)
      | Except.ok valid =>
        if valid = false then
          (Except.error (AppError.authentication "Invalid email or password"), db)
        else if truthy (lookupKey user.data "emailVerified") = false then
          (Except.error (AppError.authentication
            "Please verify your email before logging in"), db)
        else
          let tks := generateTokens user now
          let db1 := storeRefreshToken db user.id tks.2 now
          (Except.ok (Response.mk 200 true "Login successful"
            (some tks.1) (some tks.2) (some user.id)), db1)

/-- Model of `login` under the error boundary. -/
def login (db : Db) (email pw : String) (now : Nat) : Response × Db :=
  runHandler (loginH db email pw now)

/-- Model of `POST /api/auth/forgot-password`: always respond 200; when the email
is unknown answer with the hedged message, otherwise store a reset OTP and
answer that the code was sent. -/
def forgotPasswordH (db : Db) (email otp : String) (now : Nat) :
    Except AppError Response × Db :=
  match findByEmail db email with
  | none =>
    (Except.ok (Response.mk 200 true
      "If an account exists with this email, a password reset code has been sent."
      none none none), db)
  | some user =>
    let db1 := storeOTP db user.id otp "password_reset" now
    (Except.ok (Response.mk 200 true "Password reset code sent to your email"
      none none none), db1)

/-- Model of `forgotPassword` under the error boundary. -/
def forgotPassword (db : Db) (email otp : String) (now : Nat) : Response × Db :=
  runHandler (forgotPasswordH db email otp now)

/-- Model of `POST /api/auth/refresh` (`refreshToken` in `authController.js`):
verify the presented token's signature, check it against the store, load
the user, then rotate: issue a new pair, delete the old record, store the
new one. -/
def refreshH (db : Db) (t : Token) (now : Nat) : Except AppError Response × Db :=
  match verifyRefreshToken t now with
  | Except.error e => (Except.error e, db)
  | Except.ok decoded =>
    if isRefreshTokenValid db t now = false then
      (Except.error (AppError.authentication "Invalid or expired refresh token"), db)
    else
      match findById db decoded.userId with
      | none => (Except.error (AppError.authentication "User not found or inactive"), db)
      | some user =>
        if truthy (lookupKey user.data "isActive") = false then
          (Except.error (AppError.authentication "User not found or inactive"), db)
        else
          let tks := generateTokens user now
          let db1 := revokeRefreshToken db t
          let db2 := storeRefreshToken db1 user.id tks.2 now
          (Except.ok (Response.mk 200 true "Token refreshed successfully"
            (some tks.1) (some tks.2) none), db2)

/-- Model of `refresh` under the error boundary. -/
def refresh (db : Db) (t : Token) (now : Nat) : Response × Db :=
  runHandler (refreshH db t now)

/-- The identity projection `authenticate` attaches to `req.user`. -/
structure Identity where
  id : String
  email : String
  role : String
  fullName : String
deriving DecidableEq

/-- Outcome of the authentication middleware: either an attached identity
or a direct rejection response. -/
inductive AuthResult where
  | ok (ident : Identity)
  | reject (status : Nat) (message : String)
deriving DecidableEq

/-- Model of `middleware/auth.js` `authenticate`: the bearer header is modelled as
an optional scheme/credentials pair.  Missing or non-`Bearer` header is
401; a verification failure is caught and mapped to 401 when it carries
the access-token message, else 500; an unknown user is 401; a deactivated
user is 403; otherwise the identity projection is attached. -/
def authenticate (db : Db) (header : Option (String × Token)) (now : Nat) :
    AuthResult :=
  match header with
  | none => AuthResult.reject 401 "No token provided. Please authenticate."
  | some (scheme, tok) =>
    if scheme != "Bearer" then
      AuthResult.reject 401 "No token provided. Please authenticate."
    else
      match verifyAccessToken tok now with
      | Except.error e =>
        if e.message == "Invalid or expired token" then
          AuthResult.reject 401 "Token expired or invalid. Please login again."
        else AuthResult.reject 500 "Authentication failed"
      | Except.ok decoded =>
        match findById db decoded.userId with
        | none => AuthResult.reject 401 "User not found. Token invalid."
        | some user =>
          if truthy (lookupKey user.data "isActive") = false then
            AuthResult.reject 403 "Account is deactivated. Please contact support."
          else
            AuthResult.ok (Identity.mk user.id
              (getStrD (lookupKey user.data "email"))
              (getStrD (lookupKey user.data "role"))
              (getStrD (lookupKey user.data "fullName")))

/-- The allowed-fields list of `Planner.updateProfile`. -/
def plannerAllowedFields : List String :=
  ["fullName", "profilePicture", "bio", "preferences"]

/-- The allowed-fields list of `Vendor.updateProfile`. -/
def vendorAllowedFields : List String :=
  ["businessName", "businessDescription", "category", "location", "address",
   "cacNumber", "cacDocument", "socialMedia", "website", "portfolio",
   "services", "priceRange", "availability", "phoneNumber", "profilePicture",
   "fullName"]

/-- Keep only the keys of a body that appear in an allowed-fields list. -/
def filterAllowed (allowed : List String) (body : Doc) : Doc :=
  body.filter (fun kv => allowed.contains kv.1)

/-- Model of `Vendor.calculateProfileCompletion`, over the flattened document
(nested objects use dotted keys, arrays are `varrs`). -/
def calculateProfileCompletion (v : Doc) : Nat :=
  let arrNonEmpty : Option Value → Bool := fun x =>
    match x with
    | some (.varrs (_ :: _)) => true
    | _ => false
  let natPos : Option Value → Bool := fun x =>
    match x with
    | some (.vnat n) => 0 < n
    | _ => false
  let score :=
    (if truthy (lookupKey v "fullName") then 5 else 0)
    + (if truthy (lookupKey v "email") then 5 else 0)
    + (if truthy (lookupKey v "phoneNumber") then 5 else 0)
    + (if truthy (lookupKey v "profilePicture") then 5 else 0)
    + (if truthy (lookupKey v "businessName") then 5 else 0)
    + (if truthy (lookupKey v "businessDescription") then 10 else 0)
    + (if truthy (lookupKey v "category") then 10 else 0)
    + (if truthy (lookupKey v "website") then 5 else 0)
    + (if truthy (lookupKey v "address.city") then 5 else 0)
    + (if truthy (lookupKey v "address.state") then 5 else 0)
    + (if truthy (lookupKey v "address.street") then 5 else 0)
    + (if arrNonEmpty (lookupKey v "services") then 10 else 0)
    + (if natPos (lookupKey v "priceRange.min") then 10 else 0)
    + (if arrNonEmpty (lookupKey v "portfolio") then 5 else 0)
    + (if truthy (lookupKey v "socialMedia.facebook")
         || truthy (lookupKey v "socialMedia.instagram")
         || truthy (lookupKey v "socialMedia.twitter")
         || truthy (lookupKey v "socialMedia.linkedin") then 5 else 0)
    + (if truthy (lookupKey v "cacNumber") then 3 else 0)
    + (if truthy (lookupKey v "cacDocument") then 2 else 0)
  min score 100

/-- Model of `Planner.updateProfile`: filter the body to the allowed fields, then
`BaseUser.update`. -/
def plannerUpdateProfile (db : Db) (uid : String) (body : Doc) (now : Nat) :
    Except AppError (Db × UserDoc) :=
  baseUserUpdate db uid (filterAllowed plannerAllowedFields body) now

/-- Model of `Vendor.updateProfile`: filter the body to the allowed fields, compute
the completion percentage of the merged document, add the two completion
fields, then `BaseUser.update`. -/
def vendorUpdateProfile (db : Db) (uid : String) (body : Doc) (now : Nat) :
    Except AppError (Db × UserDoc) :=
  match findById db uid with
  | none => Except.error (AppError.plain "Cannot read properties of null")
  | some vendor =>
    baseUserUpdate db uid
      (filterAllowed vendorAllowedFields body ++
        [("profileCompletionPercentage", Value.vnat
          (calculateProfileCompletion
            (applyPatch vendor.data (filterAllowed vendorAllowedFields body)))),
         ("profileCompleted", Value.vbool
          (calculateProfileCompletion
            (applyPatch vendor.data (filterAllowed vendorAllowedFields body))
            == 100))]) now

/-- Model of `PUT /api/auth/profile` (`updateProfile` in `authController.js`):
dispatch on the stored role; vendors and planners go through their
filtered update, any other role through the generic `BaseUser.update`
with the raw body. -/
def updateProfileH (db : Db) (reqUserId : String) (body : Doc) (now : Nat) :
    Except AppError Response × Db :=
  match findById db reqUserId with
  | none => (Except.error (AppError.notFound "User not found"), db)
  | some user =>
    match (if lookupKey user.data "role" == some (Value.vstr "vendor") then
        vendorUpdateProfile db reqUserId body now
      else if lookupKey user.data "role" == some (Value.vstr "planner") then
        plannerUpdateProfile db reqUserId body now
      else
        baseUserUpdate db reqUserId body now) with
    | Except.error e => (Except.error e, db)
    | Except.ok (db1, updated) =>
      (Except.ok (Response.mk 200 true "Profile updated successfully"
        none none (some updated.id)), db1)

/-- Model of `updateProfile` under the error boundary. -/
def updateProfile (db : Db) (reqUserId : String) (body : Doc) (now : Nat) :
    Response × Db :=
  runHandler (updateProfileH db reqUserId body now)

/-- The field a user document stores under a key, read through the first
document with the given id. -/
def storedField (db : Db) (uid key : String) : Option Value :=
  match db.users.find? (fun u => u.id == uid) with
  | none => none
  | some u => lookupKey u.data key

/-! ### Concrete fixtures used by counterexamples and witnesses -/

/-- An active, email-verified planner account as `signup` + `verify-email`
would store it (password `Abcdefg1`, hashed with salt 3). -/
def demoUserData : Doc :=
  [("email", Value.vstr "a@x.com"), ("password", bcryptHash 3 "Abcdefg1"),
   ("fullName", Value.vstr "A B"), ("role", Value.vstr "planner"),
   ("phoneNumber", Value.vnull), ("profilePicture", Value.vnull),
   ("createdAt", Value.vnat 0), ("updatedAt", Value.vnat 0),
   ("isActive", Value.vbool true), ("emailVerified", Value.vbool true)]

/-- The demo user's stored document. -/
def demoUser : UserDoc := UserDoc.mk "u1" demoUserData

/-- A store holding only the demo user. -/
def demoDb : Db := Db.mk [demoUser] [] []

/-- The empty store. -/
def emptyDb : Db := Db.mk [] [] []

/-- The JWT payload of tokens issued to the demo user at time 0. -/
def demoPayload : JwtPayload := JwtPayload.mk "u1" "a@x.com" "planner" 0

/-- A refresh token issued to the demo user at time 0. -/
def demoToken : Token := Token.signed demoPayload JWT_REFRESH_SECRET REFRESH_TTL

/-- The demo user together with a stored refresh-token record. -/
def demoDbWithToken : Db :=
  Db.mk [demoUser] [] [TokenRecord.mk "u1" demoToken 0 REFRESH_RECORD_TTL]

/-- A refresh token issued to the demo user at time 5 — the same second
in which it will be exchanged. -/
def demoSameSecondToken : Token :=
  Token.signed (JwtPayload.mk "u1" "a@x.com" "planner" 5) JWT_REFRESH_SECRET
    (5 + REFRESH_TTL)

/-- The demo user together with the stored record of the token issued at
time 5. -/
def demoDbSameSecond : Db :=
  Db.mk [demoUser] []
    [TokenRecord.mk "u1" demoSameSecondToken 5 (5 + REFRESH_RECORD_TTL)]

/-- A deactivated, email-verified account. -/
def demoInactiveData : Doc :=
  [("email", Value.vstr "b@x.com"), ("password", bcryptHash 5 "Abcdefg1"),
   ("fullName", Value.vstr "B C"), ("role", Value.vstr "planner"),
   ("isActive", Value.vbool false), ("emailVerified", Value.vbool true)]

/-- A store holding only the deactivated account. -/
def demoDbInactive : Db := Db.mk [UserDoc.mk "u2" demoInactiveData] [] []

/-- A still-unexpired access token issued to the deactivated account. -/
def demoAccessToken : Token :=
  Token.signed (JwtPayload.mk "u2" "b@x.com" "planner" 0) JWT_SECRET 1000

/-- A malformed token string. -/
def badToken : Token := Token.malformed "garbage"

/-- A store whose `refresh_tokens` collection holds a record for the
malformed token, not yet past its stored expiry. -/
def badTokenDb : Db := Db.mk [] [] [TokenRecord.mk "u1" badToken 0 100]

/-- An admin account (creatable only outside `/signup`). -/
def demoAdminData : Doc :=
  [("email", Value.vstr "adm@x.com"), ("password", bcryptHash 1 "Abcdefg1"),
   ("fullName", Value.vstr "Root"), ("role", Value.vstr "admin"),
   ("isActive", Value.vbool true), ("emailVerified", Value.vbool true)]

/-- A store holding only the admin account. -/
def demoDbAdmin : Db := Db.mk [UserDoc.mk "a1" demoAdminData] [] []

/-- A signup request body that tries to claim the vendor role. -/
def demoSignupBody : Doc :=
  [("email", Value.vstr "B@x.com"), ("password", Value.vstr "Abcdefg1"),
   ("fullName", Value.vstr "A B"), ("role", Value.vstr "vendor")]

/-- A store holding one unused email-verification OTP record. -/
def demoDbOtp : Db :=
  Db.mk [] [OtpRecord.mk "u1" "111111" "email_verification" 0 600 false] []

/-! ### Document and list lemmas -/

theorem lookupKey_cons (p : String × Value) (rest : Doc) (k : String) :
    lookupKey (p :: rest) k
      = if p.1 == k then some p.2 else lookupKey rest k := by
  by_cases h : p.1 = k <;> simp [lookupKey, List.find?_cons, h]

theorem removeKey_cons (p : String × Value) (rest : Doc) (k : String) :
    removeKey (p :: rest) k
      = if p.1 == k then removeKey rest k else p :: removeKey rest k := by
  by_cases h : p.1 = k <;> simp [removeKey, List.filter_cons, h]

theorem lookupKey_removeKey_self (d : Doc) (k : String) :
    lookupKey (removeKey d k) k = none := by
  induction d with
  | nil => rfl
  | cons p rest ih =>
    rw [removeKey_cons]
    by_cases h : p.1 = k
    · simp only [h, beq_self_eq_true, if_true]
      exact ih
    · rw [if_neg (by simp [h]), lookupKey_cons, if_neg (by simp [h])]
      exact ih

theorem lookupKey_removeKey_ne (d : Doc) (k j : String) (h : j ≠ k) :
    lookupKey (removeKey d j) k = lookupKey d k := by
  induction d with
  | nil => rfl
  | cons p rest ih =>
    rw [removeKey_cons, lookupKey_cons]
    by_cases hp : p.1 = j
    · have hk : (p.1 == k) = false := by
        rw [hp]; exact beq_eq_false_iff_ne.mpr h
      rw [if_pos (by simp [hp]), hk, if_neg (by simp)]
      exact ih
    · rw [if_neg (by simp [hp]), lookupKey_cons]
      by_cases hk : p.1 = k
      · rw [if_pos (by simp [hk]), if_pos (by simp [hk])]
      · rw [if_neg (by simp [hk]), if_neg (by simp [hk])]
        exact ih

theorem lookupKey_map_set (d : Doc) (j k : String) (v : Value) (h : j ≠ k) :
    lookupKey (d.map (fun p => if p.1 == j then (j, v) else p)) k
      = lookupKey d k := by
  induction d with
  | nil => rfl
  | cons p rest ih =>
    rw [List.map_cons]
    by_cases hp : p.1 = j
    · rw [show (if (p.1 == j) = true then (j, v) else p) = (j, v) from by
        simp [hp]]
      rw [lookupKey_cons, lookupKey_cons, if_neg (by simp [h]),
        if_neg (by simp [hp, h])]
      exact ih
    · rw [show (if (p.1 == j) = true then (j, v) else p) = p from by
        simp [hp]]
      rw [lookupKey_cons, lookupKey_cons]
      by_cases hk : p.1 = k
      · rw [if_pos (by simp [hk]), if_pos (by simp [hk])]
      · rw [if_neg (by simp [hk]), if_neg (by simp [hk])]
        exact ih

theorem lookupKey_append_single (d : Doc) (j k : String) (v : Value)
    (h : j ≠ k) : lookupKey (d ++ [(j, v)]) k = lookupKey d k := by
  induction d with
  | nil =>
    show lookupKey [(j, v)] k = none
    rw [lookupKey_cons, if_neg (by simp [beq_eq_false_iff_ne.mpr h])]
    rfl
  | cons p rest ih =>
    rw [List.cons_append, lookupKey_cons, lookupKey_cons]
    by_cases hk : p.1 = k
    · rw [if_pos (by simp [hk]), if_pos (by simp [hk])]
    · rw [if_neg (by simp [hk]), if_neg (by simp [hk])]
      exact ih

theorem lookupKey_setKey_ne (d : Doc) (j k : String) (v : Value) (h : j ≠ k) :
    lookupKey (setKey d j v) k = lookupKey d k := by
  unfold setKey
  by_cases hs : (d.find? (fun p => p.1 == j)).isSome
  · simpa [hs] using lookupKey_map_set d j k v h
  · simpa [hs] using lookupKey_append_single d j k v h

theorem lookupKey_applyPatch_not_mem (patch : Doc) (d : Doc) (k : String)
    (h : ∀ kv ∈ patch, kv.1 ≠ k) :
    lookupKey (applyPatch d patch) k = lookupKey d k := by
  induction patch generalizing d with
  | nil => rfl
  | cons kv rest ih =>
    have step : applyPatch d (kv :: rest) = applyPatch (setKey d kv.1 kv.2) rest := rfl
    rw [step, ih _ (fun x hx => h x (List.mem_cons_of_mem _ hx))]
    exact lookupKey_setKey_ne d kv.1 k kv.2 (h kv (List.mem_cons_self _ _))

theorem find?_filter_none_of {α : Type} (l : List α) (p q : α → Bool)
    (h : ∀ x ∈ l, q x = true → p x = false) :
    (l.filter q).find? p = none := by
  induction l with
  | nil => rfl
  | cons a rest ih =>
    by_cases hq : q a = true
    · simp [List.filter_cons, hq, List.find?_cons,
        h a (List.mem_cons_self _ _) hq,
        ih (fun x hx => h x (List.mem_cons_of_mem _ hx))]
    · simp [List.filter_cons, hq,
        ih (fun x hx => h x (List.mem_cons_of_mem _ hx))]

theorem find?_append_or {α : Type} (l₁ l₂ : List α) (p : α → Bool) :
    (l₁ ++ l₂).find? p
      = (l₁.find? p).elim (l₂.find? p) (fun x => some x) := by
  induction l₁ with
  | nil => rfl
  | cons a rest ih =>
    by_cases hp : p a = true
    · simp [List.find?_cons, hp]
    · simpa [List.find?_cons, hp] using ih

theorem find?_map_pred {α : Type} (l : List α) (f : α → α) (p : α → Bool)
    (hf : ∀ x, p (f x) = p x) :
    (l.map f).find? p = (l.find? p).map f := by
  induction l with
  | nil => rfl
  | cons a rest ih =>
    by_cases hp : p a = true
    · simp [List.find?_cons, hf, hp]
    · simpa [List.find?_cons, hf, hp] using ih

theorem findByEmail_password_none (db : Db) (email : String) (u : UserDoc)
    (h : findByEmail db email = some u) :
    lookupKey u.data "password" = none := by
  unfold findByEmail at h
  rcases Option.map_eq_some'.mp h with ⟨u0, _, hu⟩
  rw [← hu]
  exact lookupKey_removeKey_self u0.data "password"

theorem otpMatches_spec (r : OtpRecord) (uid otp otype : String) :
    otpMatches r uid otp otype = true
      ↔ (r.userId = uid ∧ r.otp = otp ∧ r.otype = otype ∧ r.used = false) := by
  simp [otpMatches, Bool.and_eq_true, and_assoc]

theorem verifyOTPList_all_used (l : List OtpRecord) (uid otp otype : String)
    (now : Nat)
    (h : ∀ r ∈ l, (r.userId = uid ∧ r.otp = otp ∧ r.otype = otype) →
      r.used = true) :
    (verifyOTPList l uid otp otype now).1.1 = false := by
  induction l with
  | nil => rfl
  | cons r rest ih =>
    by_cases hm : otpMatches r uid otp otype = true
    · rcases (otpMatches_spec r uid otp otype).mp hm with ⟨h1, h2, h3, h4⟩
      have := h r (List.mem_cons_self _ _) ⟨h1, h2, h3⟩
      rw [this] at h4
      exact absurd h4 (by simp)
    · simp only [verifyOTPList, hm, Bool.false_eq_true, if_false]
      exact ih (fun x hx => h x (List.mem_cons_of_mem _ hx))

theorem verifyOTPList_first_expired (l : List OtpRecord)
    (uid otp otype : String) (now i : Nat) (r : OtpRecord)
    (hidx : otpMatchIdx l uid otp otype = some i)
    (hget : l.get? i = some r) (hexp : r.expiresAt < now) :
    (verifyOTPList l uid otp otype now).1.1 = false := by
  induction l generalizing i with
  | nil => exact absurd hidx (by simp [otpMatchIdx])
  | cons a rest ih =>
    by_cases hm : otpMatches a uid otp otype = true
    · have hi : i = 0 := by
        simp only [otpMatchIdx, hm, if_true] at hidx
        exact (Option.some_inj.mp hidx).symm
      subst hi
      have hra : r = a := by
        simp only [List.get?] at hget
        exact (Option.some_inj.mp hget).symm
      subst hra
      simp only [verifyOTPList, hm, if_true, hexp, if_pos]
    · simp only [otpMatchIdx, hm, Bool.false_eq_true, if_false] at hidx
      rcases Option.map_eq_some'.mp hidx with ⟨j, hj, hji⟩
      have hi : i = j + 1 := hji.symm
      subst hi
      simp only [List.get?] at hget
      simp only [verifyOTPList, hm, Bool.false_eq_true, if_false]
      exact ih j hj hget

theorem otpMatchIdx_map_succ (o : Option Nat) (i : Nat) :
    (o.map (fun j => j + 1)) = some (i + 1) ↔ o = some i := by
  cases o with
  | none => simp
  | some j => simp

theorem verifyOTPList_success (l : List OtpRecord) (uid otp otype : String)
    (now : Nat) (h : (verifyOTPList l uid otp otype now).1.1 = true) :
    ∃ i r, otpMatchIdx l uid otp otype = some i ∧ l.get? i = some r ∧
      (verifyOTPList l uid otp otype now).2.get? i = some (markUsed r) ∧
      otpMatchIdx (verifyOTPList l uid otp otype now).2 uid otp otype
        ≠ some i := by
  induction l with
  | nil => exact absurd h (by simp [verifyOTPList])
  | cons a rest ih =>
    by_cases hm : otpMatches a uid otp otype = true
    · by_cases hx : a.expiresAt < now
      · exact absurd h (by simp [verifyOTPList, hm, hx])
      · refine ⟨0, a, by simp [otpMatchIdx, hm], rfl, ?_, ?_⟩
        · simp [verifyOTPList, hm, hx]
        · have hmu : otpMatches (markUsed a) uid otp otype = false := by
            simp [otpMatches, markUsed]
          simp only [verifyOTPList, hm, if_true, hx, Bool.false_eq_true,
            if_false]
          simp only [otpMatchIdx, hmu, Bool.false_eq_true, if_false]
          intro hc
          rcases Option.map_eq_some'.mp hc with ⟨j, _, hj⟩
          exact absurd hj (by simp)
    · have hrec : (verifyOTPList rest uid otp otype now).1.1 = true := by
        simpa [verifyOTPList, hm] using h
      rcases ih hrec with ⟨i, r, hidx, hget, hget2, hne⟩
      refine ⟨i + 1, r, ?_, ?_, ?_, ?_⟩
      · simp only [otpMatchIdx, hm, Bool.false_eq_true, if_false]
        exact (otpMatchIdx_map_succ _ i).mpr hidx
      · simpa [List.get?] using hget
      · simp only [verifyOTPList, hm, Bool.false_eq_true, if_false]
        simpa [List.get?] using hget2
      · simp only [verifyOTPList, hm, Bool.false_eq_true, if_false]
        simp only [otpMatchIdx, hm, Bool.false_eq_true, if_false]
        intro hc
        exact hne ((otpMatchIdx_map_succ _ i).mp hc)

/-! ### Claim theorems -/

/-- C3: OTP verification fails whenever every stored record matching the
queried user/code/type triple is already marked used (regardless of the
code matching), fails when the record the query returns is past its
`expiresAt`, and on success marks the matched record used, after which
that record's position can never be matched again — no stored code
instance validates twice. -/
theorem otp_single_use (db : Db) (uid code ty : String) (now : Nat) :
    ((∀ r ∈ db.otps, (r.userId = uid ∧ r.otp = code ∧ r.otype = ty) →
        r.used = true) →
      (verifyOTP db uid code ty now).1.1 = false)
    ∧ (∀ i r, otpMatchIdx db.otps uid code ty = some i →
        db.otps.get? i = some r → r.expiresAt < now →
        (verifyOTP db uid code ty now).1.1 = false)
    ∧ ((verifyOTP db uid code ty now).1.1 = true →
        ∃ i r, otpMatchIdx db.otps uid code ty = some i ∧
          db.otps.get? i = some r ∧
          (verifyOTP db uid code ty now).2.otps.get? i = some (markUsed r) ∧
          otpMatchIdx (verifyOTP db uid code ty now).2.otps uid code ty
            ≠ some i) := by
  refine ⟨fun h => verifyOTPList_all_used db.otps uid code ty now h,
    fun i r hidx hget hexp =>
      verifyOTPList_first_expired db.otps uid code ty now i r hidx hget hexp,
    fun h => verifyOTPList_success db.otps uid code ty now h⟩

/-- Witness for C3: the demo OTP store validates its code once at time 30,
and the consumed record instance can never be matched again. -/
theorem otp_single_use_witness :
    (verifyOTP demoDbOtp "u1" "111111" "email_verification" 30).1.1 = true
    ∧ (∃ i r,
        otpMatchIdx demoDbOtp.otps "u1" "111111" "email_verification"
          = some i ∧
        demoDbOtp.otps.get? i = some r ∧
        (verifyOTP demoDbOtp "u1" "111111" "email_verification" 30).2.otps.get?
          i = some (markUsed r) ∧
        otpMatchIdx
          (verifyOTP demoDbOtp "u1" "111111" "email_verification" 30).2.otps
          "u1" "111111" "email_verification" ≠ some i) :=
  ⟨by decide,
   (otp_single_use demoDbOtp "u1" "111111" "email_verification" 30).2.2
     (by decide)⟩

/-- C6 counterexample: a stored record for a malformed token whose stored
expiry is in the future makes `isRefreshTokenValid` answer `true` even
though the token's signature does not verify — the claim's "signature
valid and unexpired" conjunct is not checked. -/
theorem isRefreshTokenValid_no_signature_check :
    isRefreshTokenValid badTokenDb badToken 50 = true
    ∧ jwtVerify badToken JWT_REFRESH_SECRET 50 = none :=
  ⟨rfl, rfl⟩

/-- C6 amended: `isRefreshTokenValid` answers `true` exactly when a stored
record with a matching token string exists and its stored `expiresAt` lies
in the future; the token's own signature and expiry play no role here. -/
theorem isRefreshTokenValid_iff (db : Db) (t : Token) (now : Nat) :
    isRefreshTokenValid db t now = true
      ↔ ∃ r, db.refreshTokens.find? (fun x => x.token == t) = some r
          ∧ now < r.expiresAt := by
  unfold isRefreshTokenValid
  cases h : db.refreshTokens.find? (fun x => x.token == t) with
  | none => simp
  | some r => simp

/-- Witness for C6: the amended characterization applied to the concrete
malformed-token store. -/
theorem isRefreshTokenValid_iff_witness :
    isRefreshTokenValid badTokenDb badToken 50 = true :=
  (isRefreshTokenValid_iff badTokenDb badToken 50).mpr
    ⟨TokenRecord.mk "u1" badToken 0 100, by decide, by decide⟩

/-- C7 counterexample: `verifyRefreshToken` fails with the bare
`Error("Invalid or expired refresh token")` — not with
`AuthenticationError("Invalid or expired token")` as the claim states. -/
theorem verify_error_shape_cex :
    verifyRefreshToken badToken 0
        = Except.error (AppError.plain "Invalid or expired refresh token")
    ∧ AppError.plain "Invalid or expired refresh token"
        ≠ AppError.authentication "Invalid or expired token" :=
  ⟨rfl, by decide⟩

/-- C7 amended: on any verification failure, `verifyAccessToken` fails
with the one bare `Error("Invalid or expired token")` and
`verifyRefreshToken` with the one bare
`Error("Invalid or expired refresh token")`, regardless of the underlying
cause; the parse error itself is never propagated. -/
theorem token_verify_errors_normalized (t : Token) (now : Nat) :
    (∀ e, verifyAccessToken t now = Except.error e →
      e = AppError.plain "Invalid or expired token")
    ∧ (∀ e, verifyRefreshToken t now = Except.error e →
      e = AppError.plain "Invalid or expired refresh token") := by
  constructor
  · intro e h
    unfold verifyAccessToken at h
    cases hj : jwtVerify t JWT_SECRET now with
    | some p => rw [hj] at h; exact absurd h (by simp)
    | none => rw [hj] at h; exact (Except.error.inj h).symm
  · intro e h
    unfold verifyRefreshToken at h
    cases hj : jwtVerify t JWT_REFRESH_SECRET now with
    | some p => rw [hj] at h; exact absurd h (by simp)
    | none => rw [hj] at h; exact (Except.error.inj h).symm

/-- Witness for C7: the malformed token's refresh-verification error is
exactly the fixed bare error. -/
theorem token_verify_errors_normalized_witness :
    AppError.plain "Invalid or expired refresh token"
      = AppError.plain "Invalid or expired refresh token" :=
  (token_verify_errors_normalized badToken 0).2
    (AppError.plain "Invalid or expired refresh token") rfl

/-- C8: forgot-password always answers 200, but its success message
differs between a store that contains the email and one that does not, so
the success response does distinguish account existence. -/
theorem forgotPassword_enumeration :
    (∀ (db : Db) (email otp : String) (now : Nat),
      (forgotPassword db email otp now).1.status = 200)
    ∧ (forgotPassword demoDb "a@x.com" "999999" 50).1.status = 200
    ∧ (forgotPassword emptyDb "a@x.com" "999999" 50).1.status = 200
    ∧ (forgotPassword demoDb "a@x.com" "999999" 50).1.message
        ≠ (forgotPassword emptyDb "a@x.com" "999999" 50).1.message := by
  refine ⟨fun db email otp now => ?_, by decide, by decide, by decide⟩
  unfold forgotPassword runHandler forgotPasswordH
  cases h : findByEmail db email <;> rfl

/-- C1: `login` can never answer 200, because `findByEmail` strips the
password hash and `verifyPassword` therefore always receives `undefined`
and throws before tokens could be issued; in particular the demo user's
login with the correct password answers 500. -/
theorem login_never_succeeds :
    (∀ (db : Db) (email pw : String) (now : Nat),
      (login db email pw now).1.status ≠ 200)
    ∧ (login demoDb "a@x.com" "Abcdefg1" 100).1.status = 500 := by
  constructor
  · intro db email pw now
    unfold login runHandler loginH
    cases hf : findByEmail db email with
    | none => simp [errResponse, errorStatus]
    | some user =>
      have hpw : lookupKey user.data "password" = none :=
        findByEmail_password_none db email user hf
      by_cases ha : truthy (lookupKey user.data "isActive") = false
      · simp [ha, errResponse, errorStatus]
      · simp [ha, hpw, verifyPassword, bcryptCompare, errResponse,
          errorStatus]
  · rfl

/-- C5: a deactivated account is rejected by the authentication gate with
403 even on a valid unexpired access token, but `login` rejects the same
account with 401 (it throws `AuthenticationError`), not with the 403 the
claim and the repository's API documentation state. -/
theorem deactivated_account_statuses :
    (∀ (db : Db) (p : JwtPayload) (e now : Nat) (u : UserDoc),
      now < e → findById db p.userId = some u →
      truthy (lookupKey u.data "isActive") = false →
      authenticate db (some ("Bearer", Token.signed p JWT_SECRET e)) now
        = AuthResult.reject 403
            "Account is deactivated. Please contact support.")
    ∧ (∀ (db : Db) (email pw : String) (now : Nat) (u : UserDoc),
      findByEmail db email = some u →
      truthy (lookupKey u.data "isActive") = false →
      (login db email pw now).1.status = 401) := by
  constructor
  · intro db p e now u hlt hfind hact
    unfold authenticate
    have hv : verifyAccessToken (Token.signed p JWT_SECRET e) now
        = Except.ok p := by
      simp [verifyAccessToken, jwtVerify, hlt]
    simp [hv, hfind, hact]
  · intro db email pw now u hfind hact
    unfold login runHandler loginH
    simp [hfind, hact, errResponse, errorStatus]

/-- Witness for C5: the deactivated demo account is rejected 403 by the
gate on a valid token, and its login answers 401. -/
theorem deactivated_account_statuses_witness :
    authenticate demoDbInactive (some ("Bearer", demoAccessToken)) 50
        = AuthResult.reject 403
            "Account is deactivated. Please contact support."
    ∧ (login demoDbInactive "b@x.com" "pw" 50).1.status = 401 :=
  ⟨deactivated_account_statuses.1 demoDbInactive
      (JwtPayload.mk "u2" "b@x.com" "planner" 0) 1000 50
      (sanitizeUser (UserDoc.mk "u2" demoInactiveData)) (by decide)
      (by decide) (by decide),
   deactivated_account_statuses.2 demoDbInactive "b@x.com" "pw" 50
      (sanitizeUser (UserDoc.mk "u2" demoInactiveData)) (by decide)
      (by decide)⟩

/-- C2 counterexample: the claim that a once-exchanged refresh token
always fails a subsequent `/refresh` with 401 is false at two concrete
inputs.  A token issued at second 5 and exchanged at second 5 is re-signed
to the byte-identical token string, which the rotation stores back, so its
replay at second 10 succeeds with 200.  And a token exchanged at second 5
but replayed after its signature expiry fails with 500 (the bare
verification error), not 401. -/
theorem refresh_replay_cex :
    (refresh demoDbSameSecond demoSameSecondToken 5).1.status = 200
    ∧ (refresh (refresh demoDbSameSecond demoSameSecondToken 5).2
        demoSameSecondToken 10).1.status = 200
    ∧ (refresh demoDbWithToken demoToken 5).1.status = 200
    ∧ (refresh (refresh demoDbWithToken demoToken 5).2 demoToken
        REFRESH_TTL).1.status = 500 :=
  ⟨by decide, by decide, by decide, by decide⟩

/-- C2 amended: once a refresh token has been exchanged successfully, the
exchange has deleted its stored record, and presenting the same token
again fails with 401, provided the token was issued strictly before the
exchange (`p.iat ≠ now1` — an exchange in the issuance second re-signs
and re-stores the identical token string, so replay then succeeds) and
its signature is still unexpired at replay (`now2 < e` — afterwards the
bare verification error yields 500 instead). -/
theorem refresh_rotation_single_use (db : Db) (p : JwtPayload)
    (e now1 now2 : Nat)
    (h200 : (refresh db (Token.signed p JWT_REFRESH_SECRET e) now1).1.status
      = 200)
    (hiat : p.iat ≠ now1) (hsig : now2 < e) :
    (refresh (refresh db (Token.signed p JWT_REFRESH_SECRET e) now1).2
        (Token.signed p JWT_REFRESH_SECRET e) now2).1.status = 401 := by
  by_cases h1 : now1 < e
  · have hv1 : verifyRefreshToken (Token.signed p JWT_REFRESH_SECRET e) now1
        = Except.ok p := by
      simp [verifyRefreshToken, jwtVerify, h1]
    simp only [refresh, runHandler, refreshH, hv1] at h200 ⊢
    by_cases h2 : isRefreshTokenValid db
        (Token.signed p JWT_REFRESH_SECRET e) now1 = false
    · simp [h2, errResponse, errorStatus] at h200
    · simp only [h2, Bool.false_eq_true, if_false] at h200 ⊢
      cases hu : findById db p.userId with
      | none => simp [hu, errResponse, errorStatus] at h200
      | some user =>
        simp only [hu] at h200 ⊢
        by_cases h3 : truthy (lookupKey user.data "isActive") = false
        · simp [h3, errResponse, errorStatus] at h200
        · simp only [h3, Bool.false_eq_true, if_false] at h200 ⊢
          have hv2 : verifyRefreshToken
              (Token.signed p JWT_REFRESH_SECRET e) now2 = Except.ok p := by
            simp [verifyRefreshToken, jwtVerify, hsig]
          simp only [refresh, runHandler, refreshH, hv2]
          have hnewne : ((generateTokens user now1).2
              == Token.signed p JWT_REFRESH_SECRET e) = false := by
            apply beq_eq_false_iff_ne.mpr
            intro hc
            have hg : (generateTokens user now1).2
                = Token.signed (JwtPayload.mk user.id
                    (getStrD (lookupKey user.data "email"))
                    (getStrD (lookupKey user.data "role")) now1)
                  JWT_REFRESH_SECRET (now1 + REFRESH_TTL) := rfl
            rw [hg] at hc
            have hpay := (Token.signed.inj hc).1
            exact hiat (JwtPayload.mk.inj hpay).2.2.2.symm
          have hvalid : isRefreshTokenValid
              (storeRefreshToken
                (revokeRefreshToken db (Token.signed p JWT_REFRESH_SECRET e))
                user.id (generateTokens user now1).2 now1)
              (Token.signed p JWT_REFRESH_SECRET e) now2 = false := by
            unfold isRefreshTokenValid storeRefreshToken revokeRefreshToken
            rw [find?_append_or]
            have hfilter : (db.refreshTokens.filter
                (fun r => r.token != Token.signed p JWT_REFRESH_SECRET e)).find?
                  (fun r => r.token == Token.signed p JWT_REFRESH_SECRET e)
                = none := by
              apply find?_filter_none_of
              intro x _ hq
              apply beq_eq_false_iff_ne.mpr
              simpa using hq
            rw [hfilter]
            simp [List.find?_cons, hnewne]
          simp [hvalid, errResponse, errorStatus]
  · have hv1 : verifyRefreshToken (Token.signed p JWT_REFRESH_SECRET e) now1
        = Except.error (AppError.plain "Invalid or expired refresh token") := by
      simp [verifyRefreshToken, jwtVerify, h1]
    simp [refresh, runHandler, refreshH, hv1, errResponse, errorStatus]
      at h200

/-- Witness for C2: the stored demo refresh token exchanges once with 200
at time 5, and replaying it at time 10 fails with 401. -/
theorem refresh_rotation_single_use_witness :
    (refresh demoDbWithToken demoToken 5).1.status = 200
    ∧ (refresh (refresh demoDbWithToken demoToken 5).2 demoToken 10).1.status
      = 401 :=
  ⟨by decide,
   refresh_rotation_single_use demoDbWithToken demoPayload REFRESH_TTL 5 10
     (by decide) (by decide) (by decide)⟩

theorem find?_id_map_update (l : List UserDoc) (uid : String) (g : UserDoc → Doc) :
    (l.map (fun u => if u.id == uid then UserDoc.mk u.id (g u) else u)).find?
        (fun u => u.id == uid)
      = (l.find? (fun u => u.id == uid)).map
          (fun u => if u.id == uid then UserDoc.mk u.id (g u) else u) := by
  apply find?_map_pred
  intro x
  by_cases hx : (x.id == uid) = true <;> simp [hx]

theorem storedField_after_update (db : Db) (uid : String) (patch : Doc)
    (now : Nat) (k : String)
    (hk : ∀ kv ∈ removeKey patch "password" ++ [("updatedAt", Value.vnat now)],
      kv.1 ≠ k) :
    ∀ dbx ux, baseUserUpdate db uid patch now = Except.ok (dbx, ux) →
      storedField dbx uid k = storedField db uid k := by
  intro dbx ux h
  unfold baseUserUpdate at h
  cases hf : db.users.find? (fun u => u.id == uid) with
  | none => rw [hf] at h; exact absurd h (by simp)
  | some w =>
    rw [hf] at h
    have hmap := find?_id_map_update db.users uid
      (fun u => applyPatch u.data
        (removeKey patch "password" ++ [("updatedAt", Value.vnat now)]))
    rw [hmap, hf] at h
    have hw : (w.id == uid) = true := by
      have h3 := List.find?_some hf
      simpa using h3
    simp only [hw, if_true, Option.map_some'] at h
    have hdbx : dbx = Db.mk (db.users.map (fun u => if u.id == uid then
        UserDoc.mk u.id (applyPatch u.data (removeKey patch "password"
          ++ [("updatedAt", Value.vnat now)])) else u))
        db.otps db.refreshTokens := by
      have := (Prod.mk.inj (Except.ok.inj h)).1
      exact this.symm
    rw [hdbx]
    unfold storedField
    rw [hmap, hf]
    simp only [hw, if_true, Option.map_some']
    exact lookupKey_applyPatch_not_mem _ w.data k hk

theorem removeKey_password_keys (patch : Doc) (now : Nat) :
    ∀ kv ∈ removeKey patch "password" ++ [("updatedAt", Value.vnat now)],
      kv.1 ≠ "password" := by
  intro kv hkv
  rcases List.mem_append.mp hkv with h | h
  · have h2 := List.mem_filter.mp h
    simpa using h2.2
  · simp only [List.mem_singleton] at h
    rw [h]
    intro hc
    simp at hc

theorem patch_keys_lift (patch : Doc) (now : Nat) (k : String)
    (hp : ∀ kv ∈ patch, kv.1 ≠ k) (hup : "updatedAt" ≠ k) :
    ∀ kv ∈ removeKey patch "password" ++ [("updatedAt", Value.vnat now)],
      kv.1 ≠ k := by
  intro kv hkv
  rcases List.mem_append.mp hkv with h | h
  · exact hp _ (List.mem_of_mem_filter h)
  · simp only [List.mem_singleton] at h
    rw [h]
    exact hup

theorem filterAllowed_keys (allowed : List String) (body : Doc) (k : String)
    (hallow : ∀ s ∈ allowed, s ≠ k) :
    ∀ kv ∈ filterAllowed allowed body, kv.1 ≠ k := by
  intro kv hkv
  have h2 := List.mem_filter.mp hkv
  have hmem : kv.1 ∈ allowed := List.elem_iff.mp h2.2
  exact hallow _ hmem

theorem vendor_patch_keys (body : Doc) (pct : Nat) :
    ∀ kv ∈ filterAllowed vendorAllowedFields body ++
      [("profileCompletionPercentage", Value.vnat pct),
       ("profileCompleted", Value.vbool (pct == 100))], kv.1 ≠ "role" := by
  intro kv hkv
  rcases List.mem_append.mp hkv with h | h
  · exact filterAllowed_keys vendorAllowedFields body "role" (by decide) kv h
  · rcases List.mem_cons.mp h with h1 | h1
    · rw [h1]; intro hc; simp at hc
    · rw [List.mem_singleton.mp h1]; intro hc; simp at hc

/-- C9 counterexample: an admin's profile-update request whose body sets
`role` flows through the generic `BaseUser.update` fallback, which strips
only `password`, so the stored role changes from `admin` to `planner`. -/
theorem updateProfile_role_overwrite_cex :
    storedField demoDbAdmin "a1" "role" = some (Value.vstr "admin")
    ∧ storedField (updateProfile demoDbAdmin "a1"
        [("role", Value.vstr "planner")] 5).2 "a1" "role"
      = some (Value.vstr "planner") :=
  ⟨by decide, by decide⟩

/-- C9 amended: no profile-update request can change the stored
`password` field on any dispatch path, and for users whose stored role is
`planner` or `vendor` the filtered update paths also leave `role`
unchanged; only the fallback path taken for any other stored role (such
as `admin`) merges the raw body and can overwrite `role`. -/
theorem profile_update_preserves (db : Db) (uid : String) (body : Doc)
    (now : Nat) :
    storedField (updateProfile db uid body now).2 uid "password"
      = storedField db uid "password"
    ∧ ((storedField db uid "role" = some (Value.vstr "planner")
        ∨ storedField db uid "role" = some (Value.vstr "vendor")) →
      storedField (updateProfile db uid body now).2 uid "role"
        = storedField db uid "role") := by
  unfold updateProfile runHandler updateProfileH
  cases hf : findById db uid with
  | none => exact ⟨rfl, fun _ => rfl⟩
  | some user =>
    dsimp only
    have hf2 := hf
    unfold findById at hf2
    rcases Option.map_eq_some'.mp hf2 with ⟨u0, hf0, hsan⟩
    have hrole : storedField db uid "role" = lookupKey user.data "role" := by
      unfold storedField
      rw [hf0]
      show lookupKey u0.data "role" = lookupKey user.data "role"
      rw [← hsan]
      exact (lookupKey_removeKey_ne u0.data "role" "password"
        (by decide)).symm
    by_cases hvend : (lookupKey user.data "role"
        == some (Value.vstr "vendor")) = true
    · rw [if_pos hvend]
      cases hres : vendorUpdateProfile db uid body now with
      | error e => exact ⟨rfl, fun _ => rfl⟩
      | ok pr =>
        obtain ⟨db1, updated⟩ := pr
        unfold vendorUpdateProfile at hres
        rw [hf] at hres
        refine ⟨?_, fun _ => ?_⟩
        · exact storedField_after_update db uid _ now "password"
            (removeKey_password_keys _ now) db1 updated hres
        · exact storedField_after_update db uid _ now "role"
            (patch_keys_lift _ now "role" (vendor_patch_keys body _)
              (by decide)) db1 updated hres
    · rw [if_neg hvend]
      by_cases hplan : (lookupKey user.data "role"
          == some (Value.vstr "planner")) = true
      · rw [if_pos hplan]
        cases hres : plannerUpdateProfile db uid body now with
        | error e => exact ⟨rfl, fun _ => rfl⟩
        | ok pr =>
          obtain ⟨db1, updated⟩ := pr
          unfold plannerUpdateProfile at hres
          refine ⟨?_, fun _ => ?_⟩
          · exact storedField_after_update db uid _ now "password"
              (removeKey_password_keys _ now) db1 updated hres
          · exact storedField_after_update db uid _ now "role"
              (patch_keys_lift _ now "role"
                (filterAllowed_keys plannerAllowedFields body "role"
                  (by decide))
                (by decide)) db1 updated hres
      · rw [if_neg hplan]
        cases hres : baseUserUpdate db uid body now with
        | error e => exact ⟨rfl, fun _ => rfl⟩
        | ok pr =>
          obtain ⟨db1, updated⟩ := pr
          refine ⟨?_, fun hpre => ?_⟩
          · exact storedField_after_update db uid _ now "password"
              (removeKey_password_keys _ now) db1 updated hres
          · exfalso
            rcases hpre with hp1 | hp1
            · rw [hrole] at hp1
              exact hplan (by rw [hp1]; rfl)
            · rw [hrole] at hp1
              exact hvend (by rw [hp1]; rfl)

/-- Witness for C9's amended theorem at a concrete planner store: a body
carrying `role` and `password` leaves both stored fields unchanged. -/
theorem profile_update_preserves_witness :
    storedField (updateProfile demoDb "u1"
        [("role", Value.vstr "admin"), ("password", Value.vstr "hax"),
         ("bio", Value.vstr "hi")] 9).2 "u1" "password"
      = storedField demoDb "u1" "password"
    ∧ storedField (updateProfile demoDb "u1"
        [("role", Value.vstr "admin"), ("password", Value.vstr "hax"),
         ("bio", Value.vstr "hi")] 9).2 "u1" "role"
      = storedField demoDb "u1" "role" :=
  ⟨(profile_update_preserves demoDb "u1"
      [("role", Value.vstr "admin"), ("password", Value.vstr "hax"),
       ("bio", Value.vstr "hi")] 9).1,
   (profile_update_preserves demoDb "u1"
      [("role", Value.vstr "admin"), ("password", Value.vstr "hax"),
       ("bio", Value.vstr "hi")] 9).2 (Or.inl (by decide))⟩

theorem planner_specific_keys (arg : Doc) :
    ∀ kv ∈ ([("bio", orDefault (lookupKey arg "bio") (Value.vstr "")),
      ("notifications",
        orDefault (lookupKey arg "notifications") (Value.varrs [])),
      ("eventsCount", Value.vnat 0),
      ("completedEventsCount", Value.vnat 0)] : Doc), kv.1 ≠ "role" := by
  intro kv hkv
  rcases List.mem_cons.mp hkv with h1 | h1
  · rw [h1]; intro hc; simp at hc
  · rcases List.mem_cons.mp h1 with h2 | h2
    · rw [h2]; intro hc; simp at hc
    · rcases List.mem_cons.mp h2 with h3 | h3
      · rw [h3]; intro hc; simp at hc
      · rw [List.mem_singleton.mp h3]; intro hc; simp at hc

/-- C10: whenever signup answers 201, every user document the request
added to the store carries role `planner`, regardless of any `role` value
in the request body: `Planner.create` ignores the body's role and creates
the base user with `role: ROLES.PLANNER`.  `newId` is the fresh document
id Firestore generates, so it differs from every existing id. -/
theorem signup_forces_planner_role (db : Db) (body : Doc)
    (otp newId : String) (salt now : Nat)
    (hfresh : ∀ w ∈ db.users, w.id ≠ newId)
    (h201 : (signup db body otp newId salt now).1.status = 201) :
    ∀ w ∈ (signup db body otp newId salt now).2.users, w ∉ db.users →
      lookupKey w.data "role" = some (Value.vstr "planner") := by
  intro w hw hnot
  unfold signup runHandler signupH at h201 hw
  cases he : getStr (lookupKey body "email") with
  | none =>
    rw [he] at h201
    simp [errResponse, errorStatus] at h201
  | some email =>
    rw [he] at h201 hw
    dsimp only at h201 hw
    cases hfe : findByEmail db email with
    | some ex =>
      rw [hfe] at h201
      simp [errResponse, errorStatus] at h201
    | none =>
      rw [hfe] at h201 hw
      dsimp only at h201 hw
      generalize harg : applyPatch
        [("email", Value.vstr email), ("role", Value.vstr "planner")]
        (removeKey body "email") = arg at h201 hw
      cases hpc : plannerCreate db arg newId salt now with
      | error e =>
        rw [hpc] at h201
        dsimp only [errResponse] at h201
        cases e <;> simp [errorStatus] at h201
      | ok pr =>
        obtain ⟨db1, user⟩ := pr
        rw [hpc] at hw
        dsimp only at hw
        have hw1 : w ∈ db1.users := hw
        unfold plannerCreate at hpc
        cases hbc : baseUserCreate db (lookupKey arg "email")
            (lookupKey arg "password") (lookupKey arg "fullName")
            (some (Value.vstr "planner")) none
            (lookupKey arg "profilePicture") newId salt now with
        | error e => rw [hbc] at hpc; exact absurd hpc (by simp)
        | ok pr2 =>
          obtain ⟨db2, baseUser⟩ := pr2
          rw [hbc] at hpc
          dsimp only at hpc
          have hdb1 := (Prod.mk.inj (Except.ok.inj hpc)).1
          unfold baseUserCreate at hbc
          cases hge : getStr (lookupKey arg "email") with
          | none => rw [hge] at hbc; simp at hbc
          | some em =>
            cases hgp : getStr (lookupKey arg "password") with
            | none => rw [hge, hgp] at hbc; simp at hbc
            | some pw =>
              rw [hge, hgp] at hbc
              dsimp only at hbc
              have hdb2 := (Prod.mk.inj (Except.ok.inj hbc)).1
              rw [← hdb2] at hdb1
              rw [← hdb1] at hw1
              dsimp only at hw1
              rcases List.mem_map.mp hw1 with ⟨x, hxmem, hfx⟩
              rcases List.mem_append.mp hxmem with hxold | hxnew
              · have hxid : (x.id == newId) = false :=
                  beq_eq_false_iff_ne.mpr (hfresh x hxold)
                exact absurd (by
                  rw [← hfx]
                  simp only [hxid, Bool.false_eq_true, if_false]
                  exact hxold) hnot
              · have hxeq := List.mem_singleton.mp hxnew
                rw [hxeq] at hfx
                simp only [beq_self_eq_true, if_true] at hfx
                rw [← hfx]
                show lookupKey (applyPatch _ _) "role" = _
                rw [lookupKey_applyPatch_not_mem _ _ "role"
                  (planner_specific_keys arg)]
                rfl

/-- Witness for C10: on the empty store, a signup body requesting role
`vendor` answers 201 and the created document's role is `planner`. -/
theorem signup_forces_planner_role_witness :
    (signup emptyDb demoSignupBody "222222" "u9" 4 0).1.status = 201
    ∧ ∀ w ∈ (signup emptyDb demoSignupBody "222222" "u9" 4 0).2.users,
        lookupKey w.data "role" = some (Value.vstr "planner") := by
  refine ⟨by decide, ?_⟩
  intro w hw
  exact signup_forces_planner_role emptyDb demoSignupBody "222222" "u9" 4 0
    (by decide) (by decide) w hw (List.not_mem_nil w)

end Planit
